import Mathlib

/-!
Shallow embedding of the pulse-oximeter service client
(repository `aravibala/RMD_Ver1`, `src/main.c`).

The repository ships only the 188-line header `src/main.c`, which declares
the data structures (`bt_pul_flags`, `bt_pul_client_measurement`,
`bt_pul_client_pul_meas`, `bt_pul_client`) and the four operations
(`bt_pul_client_init`, `bt_pul_client_measurement_subscribe`,
`bt_pul_client_measurement_unsubscribe`, `bt_pul_client_handles_assign`).
The function bodies are not part of the repository, so every behavioural
definition below is modelled from the specification (its doc comment says
so); the structures themselves are translated from the header.
-/

namespace PulClient

/-- Embedding of `struct bt_pul_flags` (src/main.c lines 49-61): five
one-bit fields packed into the status byte. Field names follow the
header, including its spelling `no_fingure_detected`. -/
structure bt_pul_flags where
  no_signal_flag : Bool
  probe_unplugged : Bool
  pulse_beep : Bool
  no_fingure_detected : Bool
  pulse_searching : Bool
deriving DecidableEq, Repr

/-- Embedding of `struct bt_pul_client_measurement` (src/main.c lines
65-74): flags, a `uint16_t` pulse rate, a `uint8_t` SpO2 value and the
trailing `uint8_t byte_check`. Machine integers are represented as `Nat`
holding values below their width bound. -/
structure bt_pul_client_measurement where
  flags : bt_pul_flags
  pulse_rate : Nat
  spO2_val : Nat
  byte_check : Nat
deriving DecidableEq, Repr

/-- Modelled from the spec: the Flags Decoder (spec section 4.3 step 2 and
the wire table of section 6). `bt_pul_client_handles_assign`-side decode
code is absent from the repository, so the decoder is taken from the
spec: direct bit extraction, bit 0 no-signal, bit 1 probe-unplugged,
bit 2 pulse-beep, bit 3 no-finger, bit 4 pulse-searching; no failure
mode. -/
def decodeFlags (b : Nat) : bt_pul_flags :=
  { no_signal_flag := b.testBit 0
    probe_unplugged := b.testBit 1
    pulse_beep := b.testBit 2
    no_fingure_detected := b.testBit 3
    pulse_searching := b.testBit 4 }

/-- Decode errors of the Measurement Decoder (spec section 7). -/
inductive DecodeError where
  | InvalidLength
  | ChecksumMismatch
deriving DecidableEq, Repr

/-- Modelled from the spec: the Measurement Decoder `decode(rawPayload)`
(spec section 4.3); the decoder body is absent from the repository.
The concrete checksum algorithm is left open by the spec (section 9,
open question), so the model takes it as a parameter `chk` computing the
single-byte check value over the first four bytes. Steps: reject any
length other than 5 with `InvalidLength`; decode flags from byte 0;
pulse rate little-endian from bytes 1-2; saturation from byte 3; verify
byte 4 against `chk` and reject a mismatch with `ChecksumMismatch`;
otherwise construct the Measurement. -/
def decode (chk : List Nat → Nat) (payload : List Nat) :
    Except DecodeError bt_pul_client_measurement :=
  match payload with
  | [b0, b1, b2, b3, b4] =>
    if b4 = chk [b0, b1, b2, b3] then
      Except.ok
        { flags := decodeFlags b0
          pulse_rate := b1 + 256 * b2
          spO2_val := b3
          byte_check := b4 }
    else Except.error DecodeError.ChecksumMismatch
  | _ => Except.error DecodeError.InvalidLength

/-- Example checksum instance used for concrete witnesses: XOR of the
preceding bytes, the example algorithm named by spec section 4.3. -/
def chkXor (bs : List Nat) : Nat :=
  bs.foldl Nat.xor 0

/-- Modelled from the spec: the conceptual values of the atomically
updated state register `bt_pul_client.state` (src/main.c line 124
declares it as `atomic_t`; its values are given only by spec sections
3 and 4.4): `Unbound → Bound → Subscribed → Bound(unsubscribed)`, plus
the transient markers held during an in-flight subscribe or
unsubscribe descriptor write. -/
inductive PulState where
  | Unbound
  | Bound
  | Subscribing
  | Subscribed
  | Unsubscribing
  | BoundUnsubscribed
deriving DecidableEq, Repr

/-- Operation errors of the state machine (spec section 7 taxonomy):
state errors, and transport errors propagated verbatim as an integer
code (the negative-errno convention of src/main.c ; the application
layer code 0x80 travels this channel too). -/
inductive OpError where
  | NotFound
  | NotBound
  | NotSubscribed
  | OperationInProgress
  | Transport (code : Int)
deriving DecidableEq, Repr

/-- Embedding of `struct bt_pul_client_pul_meas` (src/main.c lines
98-111): value handle, CCC descriptor handle, and the registered
indication callback. The callback is modelled by an abstract non-null
identity (`Option Nat`, `none` meaning no callback registered); the
transport-owned `notify_params` field is external state and is not
modelled. -/
structure bt_pul_client_pul_meas where
  handle : Nat
  ccc_handle : Nat
  notify_cb : Option Nat
deriving DecidableEq, Repr

/-- Embedding of `struct bt_pul_client` (src/main.c lines 116-125):
the connection reference (abstract identifier), the measurement
characteristic record, and the atomic state register. -/
structure bt_pul_client where
  conn : Nat
  measurement_char : bt_pul_client_pul_meas
  state : PulState
deriving DecidableEq, Repr

/-- Embedding of the 128-bit measurement-characteristic UUID
`CDEACB81-5235-4C07-8846-93A37EE6B86D` (src/main.c lines 32-33) as a
natural number. -/
def BT_UUID_PUL_MEASUREMENT_CHAR : Nat :=
  0xCDEACB8152354C07884693A37EE6B86D

/-- Modelled from the spec: one characteristic entry of a discovery
result, with its UUID, value handle and (optionally discovered) CCC
descriptor handle. The discovery procedure itself is external (spec
section 1, out of scope). -/
structure DiscChar where
  uuid : Nat
  handle : Nat
  ccc_handle : Option Nat
deriving DecidableEq, Repr

/-- Modelled from the spec: a discovery result enumerating the
characteristics discovered on the peer (the `bt_gatt_dm` object of
`bt_pul_client_handles_assign`, src/main.c line 179). -/
structure DiscoveryResult where
  chars : List DiscChar
deriving DecidableEq, Repr

/-- Lookup of the measurement characteristic by UUID within a discovery
result. -/
def findChar (dm : DiscoveryResult) : Option DiscChar :=
  dm.chars.find? (fun dc => dc.uuid = BT_UUID_PUL_MEASUREMENT_CHAR)

/-- Modelled from the spec: the Handle Binder
`bt_pul_client_handles_assign` (declared at src/main.c line 179; body
absent from the repository; behaviour from spec section 4.1). Locate
the measurement characteristic by UUID; if the lookup fails (or the
discovery result is empty) or the characteristic has no CCC descriptor,
return `NotFound` and leave the instance unmodified. On success store
both handles, discard any stale subscription callback, and set the
state to `Bound`. The result pairs the returned code with the instance
after the call. -/
def handles_assign (dm : DiscoveryResult) (pul_c : bt_pul_client) :
    Except OpError Unit × bt_pul_client :=
  match findChar dm with
  | none => (Except.error OpError.NotFound, pul_c)
  | some dc =>
    match dc.ccc_handle with
    | none => (Except.error OpError.NotFound, pul_c)
    | some ccc =>
      (Except.ok (),
        { pul_c with
            measurement_char :=
              { handle := dc.handle, ccc_handle := ccc, notify_cb := none }
            state := PulState.Bound })

/-- Modelled from the spec: the synchronous part of
`bt_pul_client_measurement_subscribe` (declared at src/main.c lines
150-151; body absent; behaviour from spec sections 4.2, 4.4 and 5).
If the handles were never bound, fail with `NotBound`. Otherwise
perform the atomic compare-and-swap from `Bound` or
`Bound(unsubscribed)` to the transient `Subscribing` marker and issue
the CCC write enabling indications: an `ok` result means the write was
initiated. A compare-and-swap mismatch (a conflicting transition in
flight, or already subscribed) fails with `OperationInProgress`. Per
spec section 5 the callback is not registered until completion, so the
callback argument does not change the instance here. -/
def subscribeBegin (cb : Nat) (pul_c : bt_pul_client) :
    Except OpError Unit × bt_pul_client :=
  match pul_c.state with
  | PulState.Unbound => (Except.error OpError.NotBound, pul_c)
  | PulState.Bound =>
    (Except.ok (), { pul_c with state := PulState.Subscribing })
  | PulState.BoundUnsubscribed =>
    (Except.ok (), { pul_c with state := PulState.Subscribing })
  | _ => (Except.error OpError.OperationInProgress, pul_c)

/-- Modelled from the spec: completion of an in-flight subscribe
(spec sections 4.2 and 5): on write success register the callback and
transition to `Subscribed`; on write failure revert the state to its
pre-call value `prev` and leave the callback unregistered. -/
def subscribeComplete (writeOk : Bool) (cb : Nat) (prev : PulState)
    (pul_c : bt_pul_client) : bt_pul_client :=
  if writeOk then
    { pul_c with
        state := PulState.Subscribed
        measurement_char :=
          { pul_c.measurement_char with notify_cb := some cb } }
  else { pul_c with state := prev }

/-- Modelled from the spec: `bt_pul_client_measurement_unsubscribe`
(declared at src/main.c line 163; body absent; behaviour from spec
section 4.2). Requires state `Subscribed`, otherwise fails with
`NotSubscribed`. `writeRes` is the transport's result for the CCC
write disabling indications: on success clear the registered callback
and finish in `Bound(unsubscribed)`; on failure leave the callback
registered and the state unchanged and propagate the error. -/
def unsubscribe (writeRes : Except Int Unit) (pul_c : bt_pul_client) :
    Except OpError Unit × bt_pul_client :=
  match pul_c.state with
  | PulState.Subscribed =>
    match writeRes with
    | Except.ok () =>
      (Except.ok (),
        { pul_c with
            state := PulState.BoundUnsubscribed
            measurement_char :=
              { pul_c.measurement_char with notify_cb := none } })
    | Except.error e => (Except.error (OpError.Transport e), pul_c)
  | _ => (Except.error OpError.NotSubscribed, pul_c)

/-- Modelled from the spec: delivery of an indication by the transport
layer (spec sections 2 and 5): the registered callback, when present,
is invoked with the decode result of the payload; when no callback is
registered nothing is invoked. Returns the invoked callback identity
paired with the value it receives, or `none` when no callback runs. -/
def deliverIndication (chk : List Nat → Nat) (pul_c : bt_pul_client)
    (payload : List Nat) :
    Option (Nat × Except DecodeError bt_pul_client_measurement) :=
  match pul_c.measurement_char.notify_cb with
  | none => none
  | some cb => some (cb, decode chk payload)

/-- Modelled from the spec: the decoder run in its calling context
(spec section 4.3: the decoder is pure and must not mutate instance or
global state). The instance and an abstract global state are threaded
through the call so that non-mutation is expressible. -/
def decodeInContext {σ : Type} (chk : List Nat → Nat)
    (payload : List Nat) (pul_c : bt_pul_client) (g : σ) :
    Except DecodeError bt_pul_client_measurement × bt_pul_client × σ :=
  (decode chk payload, pul_c, g)

end PulClient

namespace PulClient

/-- C1: decoding the 5-byte payload `[0x00, 0x4B, 0x00, 0x61, C]` with `C`
the correctly computed validation byte succeeds with pulse rate 75
(little-endian 16-bit field), SpO2 97 and all five flags false, for
every checksum algorithm `chk`. -/
theorem decode_known_payload_ok (chk : List Nat → Nat) :
    decode chk [0x00, 0x4B, 0x00, 0x61, chk [0x00, 0x4B, 0x00, 0x61]] =
      Except.ok
        { flags := ⟨false, false, false, false, false⟩
          pulse_rate := 75
          spO2_val := 97
          byte_check := chk [0x00, 0x4B, 0x00, 0x61] } := by
  simp [decode, decodeFlags]

/-- C2: decoding any byte sequence whose length is not exactly 5 yields
`InvalidLength`, for every checksum algorithm and regardless of the
bytes' contents; no Measurement is constructed. -/
theorem decode_wrong_length_invalid (chk : List Nat → Nat) (bs : List Nat)
    (h : bs.length ≠ 5) :
    decode chk bs = Except.error DecodeError.InvalidLength := by
  match bs, h with
  | [], _ => rfl
  | [a], _ => rfl
  | [a, b], _ => rfl
  | [a, b, c], _ => rfl
  | [a, b, c, d], _ => rfl
  | [a, b, c, d, e], h => exact absurd rfl h
  | a :: b :: c :: d :: e :: f :: rest, _ => rfl

/-- C2 witness: a concrete 4-byte payload is rejected with
`InvalidLength`. -/
theorem decode_wrong_length_invalid_witness :
    decode chkXor [1, 2, 3, 4] = Except.error DecodeError.InvalidLength :=
  decode_wrong_length_invalid chkXor [1, 2, 3, 4] (by decide)

/-- C3: decoding any 5-byte payload whose trailing byte differs from the
checksum computed over the preceding 4 bytes yields `ChecksumMismatch`
and constructs no Measurement. -/
theorem decode_bad_check_mismatch (chk : List Nat → Nat)
    (b0 b1 b2 b3 b4 : Nat) (h : b4 ≠ chk [b0, b1, b2, b3]) :
    decode chk [b0, b1, b2, b3, b4] =
      Except.error DecodeError.ChecksumMismatch := by
  simp [decode, h]

/-- C3 witness: with the XOR checksum, the known payload with corrupted
trailing byte 1 (the correct value is 0x2A) is rejected with
`ChecksumMismatch`. -/
theorem decode_bad_check_mismatch_witness :
    decode chkXor [0x00, 0x4B, 0x00, 0x61, 1] =
      Except.error DecodeError.ChecksumMismatch :=
  decode_bad_check_mismatch chkXor 0x00 0x4B 0x00 0x61 1 (by decide)

/-- C10: the decoder performs no range validation: every 5-byte payload
whose validation byte matches the checksum decodes successfully, with
the pulse-rate and SpO2 fields taken verbatim from the wire bytes; in
particular the physiologically impossible SpO2 255 and pulse rate 65535
are accepted. -/
theorem decode_no_range_validation :
    (∀ (chk : List Nat → Nat) (b0 b1 b2 b3 : Nat),
      decode chk [b0, b1, b2, b3, chk [b0, b1, b2, b3]] =
        Except.ok
          { flags := decodeFlags b0
            pulse_rate := b1 + 256 * b2
            spO2_val := b3
            byte_check := chk [b0, b1, b2, b3] }) ∧
    decode chkXor [0, 255, 255, 255, chkXor [0, 255, 255, 255]] =
      Except.ok
        { flags := decodeFlags 0
          pulse_rate := 65535
          spO2_val := 255
          byte_check := chkXor [0, 255, 255, 255] } := by
  constructor
  · intro chk b0 b1 b2 b3
    simp [decode]
  · simp [decode]

/-- C7: the Flags Decoder maps each status byte to the five booleans at
bits 0 (no-signal), 1 (probe-unplugged), 2 (pulse-beep), 3 (no-finger),
4 (pulse-searching); it is total (no failure mode) and every combination
of the five booleans is realized by some status byte. -/
theorem decodeFlags_bits_and_complete :
    (∀ b : Nat,
      decodeFlags b =
        ⟨b.testBit 0, b.testBit 1, b.testBit 2, b.testBit 3, b.testBit 4⟩) ∧
    (∀ f : bt_pul_flags, ∃ b : Nat, b < 32 ∧ decodeFlags b = f) := by
  constructor
  · intro b
    rfl
  · intro f
    rcases f with ⟨a, b, c, d, e⟩
    refine ⟨(cond a 1 0) + 2 * (cond b 1 0) + 4 * (cond c 1 0) +
      8 * (cond d 1 0) + 16 * (cond e 1 0), ?_, ?_⟩ <;>
      cases a <;> cases b <;> cases c <;> cases d <;> cases e <;> decide

/-- C4 counterexample: a client whose state is the transient
`Subscribing` marker is neither `Bound` nor `Bound(unsubscribed)`, yet
subscribe fails on it with `OperationInProgress` (the compare-and-swap
mismatch error of spec section 4.4, required by the concurrent-subscribe
property of spec section 8), not with `NotBound` as the claim states. -/
theorem subscribe_bad_state_cex :
    (subscribeBegin 1
        ⟨0, ⟨10, 11, none⟩, PulState.Subscribing⟩).1 =
      Except.error OpError.OperationInProgress ∧
    OpError.OperationInProgress ≠ OpError.NotBound ∧
    PulState.Subscribing ≠ PulState.Bound ∧
    PulState.Subscribing ≠ PulState.BoundUnsubscribed :=
  ⟨rfl, by decide, by decide, by decide⟩

/-- C4 (amended): whenever the state is neither `Bound` nor
`Bound(unsubscribed)`, subscribe fails and leaves the instance
unchanged; the error is `NotBound` exactly when the instance is
`Unbound` (bind never called), and `OperationInProgress` from the
transient or subscribed states. -/
theorem subscribe_bad_state (cb : Nat) (pul_c : bt_pul_client)
    (h1 : pul_c.state ≠ PulState.Bound)
    (h2 : pul_c.state ≠ PulState.BoundUnsubscribed) :
    subscribeBegin cb pul_c =
      ((if pul_c.state = PulState.Unbound then
          Except.error OpError.NotBound
        else Except.error OpError.OperationInProgress), pul_c) := by
  rcases pul_c with ⟨conn, mc, st⟩
  cases st <;> simp_all [subscribeBegin]

/-- C4 witness: subscribe on a freshly initialized (`Unbound`) instance
fails with `NotBound` and leaves it unchanged. -/
theorem subscribe_bad_state_witness :
    subscribeBegin 1 ⟨0, ⟨0, 0, none⟩, PulState.Unbound⟩ =
      (Except.error OpError.NotBound,
        ⟨0, ⟨0, 0, none⟩, PulState.Unbound⟩) := by
  simpa using
    subscribe_bad_state 1 ⟨0, ⟨0, 0, none⟩, PulState.Unbound⟩
      (by decide) (by decide)

/-- C5: for every discovery result that contains no characteristic with
the measurement UUID (in particular the empty one), bind returns
`NotFound` and returns the instance unmodified, so an `Unbound`
instance stays `Unbound`. -/
theorem handles_assign_not_found (dm : DiscoveryResult)
    (pul_c : bt_pul_client)
    (h : ∀ dc ∈ dm.chars, dc.uuid ≠ BT_UUID_PUL_MEASUREMENT_CHAR) :
    handles_assign dm pul_c = (Except.error OpError.NotFound, pul_c) := by
  have hf : findChar dm = none := by
    simp only [findChar, List.find?_eq_none, decide_eq_true_eq]
    exact h
  simp [handles_assign, hf]

/-- C5 witness: bind on an empty discovery result fails with `NotFound`
and leaves the `Unbound` instance untouched. -/
theorem handles_assign_not_found_witness :
    handles_assign ⟨[]⟩ ⟨0, ⟨0, 0, none⟩, PulState.Unbound⟩ =
      (Except.error OpError.NotFound,
        ⟨0, ⟨0, 0, none⟩, PulState.Unbound⟩) :=
  handles_assign_not_found ⟨[]⟩ ⟨0, ⟨0, 0, none⟩, PulState.Unbound⟩
    (by simp)

/-- C6: from state `Subscribed`, an unsubscribe whose descriptor write
succeeds returns success, moves the state to `Bound(unsubscribed)`,
clears the registered indication callback, and an indication delivered
afterwards invokes no callback. -/
theorem unsubscribe_clears_callback (pul_c : bt_pul_client)
    (chk : List Nat → Nat) (payload : List Nat)
    (h : pul_c.state = PulState.Subscribed) :
    (unsubscribe (Except.ok ()) pul_c).1 = Except.ok () ∧
    (unsubscribe (Except.ok ()) pul_c).2.state =
      PulState.BoundUnsubscribed ∧
    (unsubscribe (Except.ok ()) pul_c).2.measurement_char.notify_cb =
      none ∧
    deliverIndication chk (unsubscribe (Except.ok ()) pul_c).2 payload =
      none := by
  rcases pul_c with ⟨conn, mc, st⟩
  cases st <;> simp_all [unsubscribe, deliverIndication]

/-- C6 witness: concrete subscribed client with callback 7 registered;
after a successful unsubscribe the callback is gone and an indication
invokes nothing. -/
theorem unsubscribe_clears_callback_witness :
    (unsubscribe (Except.ok ())
        ⟨0, ⟨1, 2, some 7⟩, PulState.Subscribed⟩).1 = Except.ok () ∧
    (unsubscribe (Except.ok ())
        ⟨0, ⟨1, 2, some 7⟩, PulState.Subscribed⟩).2.state =
      PulState.BoundUnsubscribed ∧
    (unsubscribe (Except.ok ())
        ⟨0, ⟨1, 2, some 7⟩,
          PulState.Subscribed⟩).2.measurement_char.notify_cb = none ∧
    deliverIndication chkXor
      (unsubscribe (Except.ok ())
        ⟨0, ⟨1, 2, some 7⟩, PulState.Subscribed⟩).2
      [0, 75, 0, 97, 42] = none :=
  unsubscribe_clears_callback ⟨0, ⟨1, 2, some 7⟩, PulState.Subscribed⟩
    chkXor [0, 75, 0, 97, 42] rfl

/-- C8: two concurrent subscribe calls on one instance. Spec section 4.4
totally orders the two compare-and-swap transitions, so a concurrent
execution is one of the two linearizations; quantifying over the two
callbacks covers both orders. Whichever call runs its compare-and-swap
first succeeds in initiating the descriptor write, and the other then
fails with `OperationInProgress`: exactly one of the two succeeds. -/
theorem concurrent_subscribe_one_wins (cb1 cb2 : Nat)
    (pul_c : bt_pul_client)
    (h : pul_c.state = PulState.Bound ∨
      pul_c.state = PulState.BoundUnsubscribed) :
    (subscribeBegin cb1 pul_c).1 = Except.ok () ∧
    (subscribeBegin cb2 (subscribeBegin cb1 pul_c).2).1 =
      Except.error OpError.OperationInProgress := by
  rcases pul_c with ⟨conn, mc, st⟩
  rcases h with h | h <;> simp_all [subscribeBegin]

/-- C8 witness: on a concrete bound client, the first of two subscribe
calls succeeds and the second fails with `OperationInProgress`. -/
theorem concurrent_subscribe_one_wins_witness :
    (subscribeBegin 1 ⟨0, ⟨1, 2, none⟩, PulState.Bound⟩).1 =
      Except.ok () ∧
    (subscribeBegin 2
        (subscribeBegin 1 ⟨0, ⟨1, 2, none⟩, PulState.Bound⟩).2).1 =
      Except.error OpError.OperationInProgress :=
  concurrent_subscribe_one_wins 1 2 ⟨0, ⟨1, 2, none⟩, PulState.Bound⟩
    (Or.inl rfl)

/-- C9: the decoder is pure. Run in context, it returns the client
instance and the global state unchanged, and its result component is
`decode chk payload`, a function of the payload alone: two calls on
equal payloads return equal results whatever the surrounding instance
and global state are. -/
theorem decode_pure {σ : Type} (chk : List Nat → Nat)
    (payload : List Nat) (c1 c2 : bt_pul_client) (g1 g2 : σ) :
    decodeInContext chk payload c1 g1 = (decode chk payload, c1, g1) ∧
    (decodeInContext chk payload c1 g1).1 =
      (decodeInContext chk payload c2 g2).1 :=
  ⟨rfl, rfl⟩

end PulClient
